import Mathlib

/-!
Verification of the Resuscope resume-analysis service.

This file shallowly embeds the scoring pipeline of the repository
(`src/app.py`, `src/models/matcher.py`, `src/models/extractor.py`,
`src/models/rewriter.py`) into Lean 4 and proves the specified
properties of the embedded code.

Modelling conventions:
* Python floats are modelled as exact rationals (`ℚ`); Python's
  `round()` (banker's rounding, no digits argument) is `pyRound`, and
  `round(x, 2)` is `round2`.
* The external sentence-transformer model is opaque: it is a parameter
  `EmbedModel V` packaging a fallible batch `encode`, the tensor
  `mean(dim=0)` reduction, and `util.cos_sim`.  A missing model handle
  is `none : Option (EmbedModel V)`.
* Python exceptions are `Except String`; a function that catches all
  exceptions and returns a default is total in the embedding.
* Call-count observations (was `encode` invoked? was the generative
  oracle invoked?) are returned alongside values, so that
  "short-circuits without calling the model" is a provable statement.
-/

set_option autoImplicit false

/-- Python `round(q)` with no digits argument: round half to even
(banker's rounding), returning an integer. -/
def pyRound (q : ℚ) : ℤ :=
  let f := ⌊q⌋
  if q - f < 1/2 then f
  else if q - f > 1/2 then f + 1
  else if f % 2 = 0 then f else f + 1

/-- Python `round(q, 2)`: round to two decimal places (half to even). -/
def round2 (q : ℚ) : ℚ :=
  (pyRound (q * 100) : ℚ) / 100

/-- An argument to `SemanticModel.score`: either a single text or a list
of short phrases (`Union[str, List[str]]` in `matcher.py`). -/
inductive TextInput where
  | str (s : String)
  | list (l : List String)

/-- Opaque interface of the loaded sentence-transformer model, as used by
`matcher.py`: `encode` maps a batch of texts to one embedding vector per
text and may raise (modelled by `Except`); `mean` is the tensor
`.mean(dim=0)` reduction of a batch of embeddings; `cosSim` is
`util.cos_sim(e1, e2).item()`. -/
structure EmbedModel (V : Type) where
  encode : List String → Except String (List V)
  mean : List V → V
  cosSim : V → V → ℚ

/-- Lines 63-64 of `matcher.py`: rescale a cosine similarity to a
percentage, `max(0.0, min(100.0, round(similarity * 100, 2)))`. -/
def scoreFromSim (sim : ℚ) : ℚ :=
  max 0 (min 100 (round2 (sim * 100)))

/-- `SemanticModel.score` (`matcher.py` lines 39-71).  Returns the score
together with the number of `model.encode` invocations performed.
The source wraps the body in `try/except` returning `0.0` on any
exception; correspondingly every fallible step (`model is None`, a
failing `encode`, an `encode` result too short for `embeddings[0],
embeddings[1]`) yields `(0, _)` here, and the Lean function is total,
so no exception escapes the boundary. -/
def SemanticModel.score {V : Type} (model : Option (EmbedModel V))
    (job_text resume_text : TextInput) : ℚ × ℕ :=
  match model with
  | none => (0, 0)
  | some m =>
    match job_text, resume_text with
    | TextInput.str j, TextInput.str r =>
      match m.encode [j, r] with
      | Except.error _ => (0, 1)
      | Except.ok embs =>
        match embs with
        | e1 :: e2 :: _ => (scoreFromSim (m.cosSim e1 e2), 1)
        | _ => (0, 1)
    | TextInput.list j, TextInput.list r =>
      if j.isEmpty || r.isEmpty then (0, 0)
      else
        match m.encode j with
        | Except.error _ => (0, 1)
        | Except.ok ej =>
          match m.encode r with
          | Except.error _ => (0, 2)
          | Except.ok er => (scoreFromSim (m.cosSim (m.mean ej) (m.mean er)), 2)
    | _, _ => (0, 0)

/-- Python `s.endswith(suffix)`: suffix test on the sequence of
characters.  (Lean's own `String.endsWith` is avoided because its
byte-position arithmetic does not reduce in the kernel; on the
character list the test is the same predicate.) -/
def pyEndsWith (s suffix : String) : Bool :=
  suffix.data.isSuffixOf s.data

/-- One entry of the Skill Set Extractor output
(`SkillCategory` in `extractor.py`). -/
structure SkillCategory where
  category : String
  skills : List String

/-- The Skill Set Extractor output schema
(`CandidateSkills` in `extractor.py`). -/
structure CandidateSkills where
  skill_sets : List SkillCategory

/-- The Requirement Extractor output schema
(`RequiredSkillsResponse` in `rewriter.py`). -/
structure RequiredSkills where
  technical_skills : List String
  soft_skills : List String

/-- Lines 106 and 109 of `app.py` for tag `"TECHNICAL"` (the same code
shape serves `"SOFT"`): the comprehension
`[index.get('skills',[]) for index in skill_sets if index.get('category') == tag]`
followed by `lst[0] if lst and lst[0] else []`. -/
def firstTagged (tag : String) (res : CandidateSkills) : List String :=
  match (res.skill_sets.filter (fun e => e.category == tag)).map (fun e => e.skills) with
  | [] => []
  | x :: _ => if x.isEmpty then [] else x

/-- The technical phrase list `tech_input` of `app.py` line 109. -/
def techInputOf (res : CandidateSkills) : List String :=
  firstTagged "TECHNICAL" res

/-- The soft-skill phrase list `soft_input` of `app.py` line 110. -/
def softInputOf (res : CandidateSkills) : List String :=
  firstTagged "SOFT" res

/-- The value `tech_score` computed at `app.py` line 113. -/
def techComponent {V : Type} (m : Option (EmbedModel V))
    (res : CandidateSkills) (req : RequiredSkills) : ℚ :=
  (SemanticModel.score m (TextInput.list req.technical_skills) (TextInput.list (techInputOf res))).1

/-- The value `soft_score` computed at `app.py` line 114. -/
def softComponent {V : Type} (m : Option (EmbedModel V))
    (res : CandidateSkills) (req : RequiredSkills) : ℚ :=
  (SemanticModel.score m (TextInput.list req.soft_skills) (TextInput.list (softInputOf res))).1

/-- The value `skill_match_score` computed at `app.py` line 116. -/
def skillComponent {V : Type} (m : Option (EmbedModel V))
    (res : CandidateSkills) (req : RequiredSkills) : ℚ :=
  0.75 * techComponent m res req + 0.25 * softComponent m res req

/-- The value `ats_match_score` computed at `app.py` line 118. -/
def atsComponent {V : Type} (m : Option (EmbedModel V))
    (job_description resume_text : String) : ℚ :=
  (SemanticModel.score m (TextInput.str job_description) (TextInput.str resume_text)).1

/-- The JSON body assembled at `app.py` lines 130-143: `overall_score`
plus the nested `scores` object. -/
structure AnalyzeResponse where
  overall_score : ℤ
  ats_compatibility_score : ℤ
  skill_match_score : ℤ
  content_quality_score : ℤ
  structure_score : ℤ

/-- The scoring body of the `/analyze_resume` handler (`app.py` lines
103-143), given the already-normalized oracle outputs: candidate
skills, required skills, and the integer content/structure scores.
`overall_score` is `round((ats*0.5)+(skill*0.3)+(content*0.1)+(structure*0.1))`
(line 127) over the unrounded values; the displayed component scores
are rounded separately (lines 136-137). -/
def analyze_resume {V : Type} (m : Option (EmbedModel V))
    (job_description resume_text : String)
    (res_skill : CandidateSkills) (req_skill : RequiredSkills)
    (content_score structure_score : ℤ) : AnalyzeResponse :=
  let tech_score := techComponent m res_skill req_skill
  let soft_score := softComponent m res_skill req_skill
  let skill_match_score := 0.75 * tech_score + 0.25 * soft_score
  let ats_match_score := atsComponent m job_description resume_text
  let overall_score := pyRound (ats_match_score * 0.5 + skill_match_score * 0.3
      + (content_score : ℚ) * 0.1 + (structure_score : ℚ) * 0.1)
  { overall_score := overall_score
    ats_compatibility_score := pyRound ats_match_score
    skill_match_score := pyRound skill_match_score
    content_quality_score := content_score
    structure_score := structure_score }

/-- The value `extract_all_skills` returns (`extractor.py` lines 48-82):
the `skill_sets` list plus the optional `error` entry of the returned
dict. -/
structure ExtractResult where
  skill_sets : List SkillCategory
  error : Option String

/-- `extract_all_skills` (`extractor.py` lines 48-82).  The generative
chain is the opaque `oracle` argument (its result, or the exception it
raised).  The returned `Bool` records whether the oracle was invoked.
Guard (line 49): `if not text or len(text) < 50` — Python string
truthiness and `len` are taken on the character sequence. -/
def extract_all_skills (text : String) (oracle : Except String CandidateSkills) :
    ExtractResult × Bool :=
  if text.data.isEmpty || text.data.length < 50 then
    ({ skill_sets := [], error := some "Resume text is too short for skill extraction." }, false)
  else
    match oracle with
    | Except.ok r => ({ skill_sets := r.skill_sets, error := none }, true)
    | Except.error e =>
      ({ skill_sets := [], error := some ("AI extraction failed: " ++ e) }, true)

/-- `get_required_skills` (`rewriter.py` lines 62-85): on oracle success
the parsed schema, on any exception the fallback
`{"technical_skills": [], "soft_skills": [], "error": ...}` (of which
the caller in `app.py` reads only the two lists). -/
def get_required_skills (oracle : Except String RequiredSkills) : RequiredSkills :=
  match oracle with
  | Except.ok r => r
  | Except.error _ => { technical_skills := [], soft_skills := [] }

/-- The `ContentScoreResponse` schema of `rewriter.py`. -/
structure ContentScoreResponse where
  score : ℤ
  reasoning : String
  missing_keywords : List String
  improvement_tips : List String

/-- `get_content_score` (`rewriter.py` lines 88-115): on any exception
the fallback `{"score": 0, "reasoning": ..., "missing_keywords": [],
"improvement_tips": []}`. -/
def get_content_score (oracle : Except String ContentScoreResponse) : ContentScoreResponse :=
  match oracle with
  | Except.ok r => r
  | Except.error e =>
    { score := 0, reasoning := "Failed to analyze resume: " ++ e
      missing_keywords := [], improvement_tips := [] }

/-- The `StructureScoreResponse` schema of `rewriter.py`. -/
structure StructureScoreResponse where
  score : ℤ
  reasoning : String

/-- `get_structure_score` (`rewriter.py` lines 118-143): on any
exception the fallback `{"score": 0, "reasoning": ...}`. -/
def get_structure_score (oracle : Except String StructureScoreResponse) : StructureScoreResponse :=
  match oracle with
  | Except.ok r => r
  | Except.error e => { score := 0, reasoning := "Error during structure scoring: " ++ e }

/-- A Python dict value, as far as the oracle clients return them:
strings or lists of strings. -/
inductive JVal where
  | s (v : String)
  | ls (v : List String)
deriving DecidableEq

/-- The declared output schema of `get_professional_summary_suggestions`
(`ProfessionalSummaryResponse` in `rewriter.py`): a single field
`key_points : List[str]`. -/
structure ProfessionalSummaryResponse where
  key_points : List String

/-- `get_professional_summary_suggestions` (`rewriter.py` lines
296-323), returning the Python dict as an association list: on oracle
success `result.model_dump()` (the `key_points` field), on any
exception the literal fallback written at lines 322-323, which uses the
key `"options"`. -/
def get_professional_summary_suggestions (score : ℚ)
    (oracle : Except String ProfessionalSummaryResponse) : List (String × JVal) :=
  match oracle with
  | Except.ok r => [("key_points", JVal.ls r.key_points)]
  | Except.error e => [("options", JVal.ls []), ("error", JVal.s ("Error generating summary: " ++ e))]

/-- Conformance to the declared `ProfessionalSummaryResponse` schema: the
dict must carry a `key_points` entry holding a list of strings. -/
def professionalSummaryConforms (d : List (String × JVal)) : Bool :=
  match d.lookup "key_points" with
  | some (JVal.ls _) => true
  | _ => false

/-- `process_uploaded_file` (`app.py` lines 56-74).  `pdfText` and
`docxText` stand for the results of the (exception-free, see
`extractor.py` lines 15-36) extraction helpers.  Returns the extracted
text or the raised `HTTPException` as `(status_code, detail)`, plus a
flag recording whether extraction was reached.  The emptiness guard
(line 66) is `if not text or len(text.strip()) == 0`, i.e. the text has
no non-whitespace character. -/
def process_uploaded_file (filename pdfText docxText : String) :
    Except (ℕ × String) String × Bool :=
  if !(pyEndsWith filename ".pdf" || pyEndsWith filename ".docx") then
    (Except.error (400, "Unsupported File Format. Please upload .docx or .pdf"), false)
  else
    let text := if pyEndsWith filename ".pdf" then pdfText else docxText
    if text.data.isEmpty || text.data.all (fun c => c.isWhitespace) then
      (Except.error (400, "Could not extract text from file or file is empty."), true)
    else
      (Except.ok text, true)

/-- Observable outcome of one `/analyze_resume` request: the HTTP
response plus which subsystems ran. -/
structure EndpointTrace where
  response : Except (ℕ × String) AnalyzeResponse
  extractionCalled : Bool
  oracleCalled : Bool
  encodeCalled : Bool

/-- The `/analyze_resume` endpoint (`app.py` lines 91-143): FastAPI
first resolves the `Depends(process_uploaded_file)` parameter, so an
upload rejection raises before the handler body (oracle calls and
scoring) runs.  `encodeCalled` collects the `model.encode` invocation
counts of the three `score` calls the body makes. -/
def analyze_resume_endpoint {V : Type} (m : Option (EmbedModel V))
    (filename pdfText docxText job_description job_title : String)
    (skillOracle : Except String CandidateSkills)
    (reqOracle : Except String RequiredSkills)
    (contentOracle : Except String ContentScoreResponse)
    (structOracle : Except String StructureScoreResponse) : EndpointTrace :=
  match process_uploaded_file filename pdfText docxText with
  | (Except.error e, ext) =>
    { response := Except.error e, extractionCalled := ext
      oracleCalled := false, encodeCalled := false }
  | (Except.ok resume_text, ext) =>
    let res_skill : CandidateSkills := { skill_sets := (extract_all_skills resume_text skillOracle).1.skill_sets }
    let req_skill := get_required_skills reqOracle
    let content_score := (get_content_score contentOracle).score
    let structure_score := (get_structure_score structOracle).score
    let encodes :=
      (SemanticModel.score m (TextInput.list req_skill.technical_skills) (TextInput.list (techInputOf res_skill))).2
      + (SemanticModel.score m (TextInput.list req_skill.soft_skills) (TextInput.list (softInputOf res_skill))).2
      + (SemanticModel.score m (TextInput.str job_description) (TextInput.str resume_text)).2
    { response := Except.ok (analyze_resume m job_description resume_text res_skill req_skill content_score structure_score)
      extractionCalled := ext, oracleCalled := true
      encodeCalled := decide (0 < encodes) }

/-! Helper lemmas about the embedded arithmetic. -/

theorem pyRound_nonpos_of_neg {q : ℚ} (h : q < 0) : pyRound q ≤ 0 := by
  have hf : ⌊q⌋ < 0 := by
    have := Int.floor_le_floor (le_of_lt h)
    have h0 : ⌊q⌋ < 0 := Int.floor_lt.mpr (by exact_mod_cast h)
    exact h0
  unfold pyRound
  dsimp only
  split
  · omega
  · split
    · omega
    · split <;> omega

theorem scoreFromSim_nonneg (sim : ℚ) : 0 ≤ scoreFromSim sim :=
  le_max_left 0 _

theorem scoreFromSim_le_100 (sim : ℚ) : scoreFromSim sim ≤ 100 :=
  max_le (by norm_num) (min_le_left _ _)

theorem scoreFromSim_of_neg {sim : ℚ} (h : sim < 0) : scoreFromSim sim = 0 := by
  have h1 : sim * 100 * 100 < 0 := by nlinarith
  have h2 : round2 (sim * 100) ≤ 0 := by
    unfold round2
    have := pyRound_nonpos_of_neg h1
    have hc : ((pyRound (sim * 100 * 100) : ℚ)) ≤ 0 := by exact_mod_cast this
    linarith
  unfold scoreFromSim
  have hmin : min 100 (round2 (sim * 100)) = round2 (sim * 100) :=
    min_eq_right (by linarith)
  rw [hmin]
  exact max_eq_left h2

theorem pyRound_intCast (z : ℤ) : pyRound (z : ℚ) = z := by
  unfold pyRound
  dsimp only
  rw [Int.floor_intCast]
  have h : (z : ℚ) - (z : ℚ) = 0 := by ring
  rw [h]
  norm_num

theorem scoreFromSim_one : scoreFromSim 1 = 100 := by
  unfold scoreFromSim round2
  have h1 : (1 : ℚ) * 100 * 100 = ((10000 : ℤ) : ℚ) := by norm_num
  rw [h1, pyRound_intCast]
  norm_num

/-- Every value `score` returns is either the `0.0` of some fallback
branch or `scoreFromSim` of some cosine similarity. -/
theorem score_fst_shape {V : Type} (m : Option (EmbedModel V)) (a b : TextInput) :
    (SemanticModel.score m a b).1 = 0 ∨
      ∃ sim, (SemanticModel.score m a b).1 = scoreFromSim sim := by
  unfold SemanticModel.score
  repeat' split
  all_goals first
    | exact Or.inr ⟨_, rfl⟩
    | exact Or.inl rfl

theorem score_fst_nonneg {V : Type} (m : Option (EmbedModel V)) (a b : TextInput) :
    0 ≤ (SemanticModel.score m a b).1 := by
  rcases score_fst_shape m a b with h | ⟨sim, h⟩
  · rw [h]
  · rw [h]; exact scoreFromSim_nonneg sim

theorem score_fst_le_100 {V : Type} (m : Option (EmbedModel V)) (a b : TextInput) :
    (SemanticModel.score m a b).1 ≤ 100 := by
  rcases score_fst_shape m a b with h | ⟨sim, h⟩
  · rw [h]; norm_num
  · rw [h]; exact scoreFromSim_le_100 sim

/-- The degenerate-input short-circuit: an empty phrase list on the
right yields `(0.0, 0)` whatever the other argument is. -/
theorem score_right_empty {V : Type} (m : Option (EmbedModel V)) (x : TextInput) :
    SemanticModel.score m x (TextInput.list []) = (0, 0) := by
  rcases m with _ | mm
  · rfl
  rcases x with j | j
  · rfl
  · simp [SemanticModel.score]

/-- The degenerate-input short-circuit: an empty phrase list on the
left yields `(0.0, 0)` whatever the other argument is. -/
theorem score_left_empty {V : Type} (m : Option (EmbedModel V)) (x : TextInput) :
    SemanticModel.score m (TextInput.list []) x = (0, 0) := by
  rcases m with _ | mm
  · rfl
  rcases x with j | j
  · rfl
  · simp [SemanticModel.score]

/-- The comprehension-then-index idiom of `app.py` lines 106-110 picks
exactly the first entry bearing the tag: it equals a `find?` lookup,
with the empty list when no entry matches or the first match has an
empty skill list. -/
theorem firstTagged_aux (tag : String) (l : List SkillCategory) :
    (match (l.filter (fun e => e.category == tag)).map (fun e => e.skills) with
     | [] => []
     | x :: _ => if x.isEmpty then [] else x)
    = (match l.find? (fun e => e.category == tag) with
       | none => []
       | some e => if e.skills.isEmpty then [] else e.skills) := by
  induction l with
  | nil => rfl
  | cons a t ih =>
    cases h : a.category == tag
    · simpa [List.filter_cons, h, List.find?] using ih
    · simp [List.filter_cons, h, List.find?]

theorem firstTagged_eq_find (tag : String) (res : CandidateSkills) :
    firstTagged tag res =
      (match res.skill_sets.find? (fun e => e.category == tag) with
       | none => []
       | some e => if e.skills.isEmpty then [] else e.skills) := by
  unfold firstTagged
  exact firstTagged_aux tag res.skill_sets

/-- The conditions under which the body of `SemanticModel.score` raises
internally (all caught by its `try/except`): the model handle is
missing (`model is None`, `matcher.py` line 42), `model.encode` raises,
or the encoded batch is too short for `embeddings[0], embeddings[1]`. -/
def encodeFailed {V : Type} (m : EmbedModel V) (a b : TextInput) : Bool :=
  match a, b with
  | TextInput.str j, TextInput.str r =>
    match m.encode [j, r] with
    | Except.error _ => true
    | Except.ok embs =>
      match embs with
      | _ :: _ :: _ => false
      | _ => true
  | TextInput.list j, TextInput.list r =>
    if j.isEmpty || r.isEmpty then false
    else
      match m.encode j with
      | Except.error _ => true
      | Except.ok _ =>
        match m.encode r with
        | Except.error _ => true
        | Except.ok _ => false
  | _, _ => false

/-- A scoring call fails internally when the singleton handle is absent
or the embedding steps fail (`matcher.py` lines 41-43, 47, 54-55). -/
def internalFailure {V : Type} (m : Option (EmbedModel V)) (a b : TextInput) : Bool :=
  match m with
  | none => true
  | some mm => encodeFailed mm a b

/-- A concrete well-behaved embedding model over the trivial vector
type, used to instantiate universally quantified theorems. -/
def unitModel : EmbedModel Unit where
  encode := fun l => Except.ok (l.map (fun _ => ()))
  mean := fun _ => ()
  cosSim := fun _ _ => 1

/-- A concrete model whose `encode` always raises. -/
def failingModel : EmbedModel Unit where
  encode := fun _ => Except.error "encode failure"
  mean := fun _ => ()
  cosSim := fun _ _ => 1

/-! Claim theorems. -/

/-- C1: in the `analyze_resume` pipeline the overall score equals
`round(0.5*ats + 0.3*skill_match + 0.1*content + 0.1*structure)` where
rounding is applied exactly once at the end, the four component values
entering the weighted sum being the unrounded component values; the
component scores are rounded separately only for display in the
response (content and structure scores are already integers and are
displayed as supplied). -/
theorem analyze_resume_overall_weighted_once {V : Type} (m : Option (EmbedModel V))
    (jd rt : String) (res : CandidateSkills) (req : RequiredSkills) (c s : ℤ) :
    (analyze_resume m jd rt res req c s).overall_score
        = pyRound (0.5 * atsComponent m jd rt + 0.3 * skillComponent m res req
            + 0.1 * (c : ℚ) + 0.1 * (s : ℚ))
      ∧ (analyze_resume m jd rt res req c s).ats_compatibility_score
          = pyRound (atsComponent m jd rt)
      ∧ (analyze_resume m jd rt res req c s).skill_match_score
          = pyRound (skillComponent m res req)
      ∧ (analyze_resume m jd rt res req c s).content_quality_score = c
      ∧ (analyze_resume m jd rt res req c s).structure_score = s := by
  refine ⟨?_, rfl, rfl, rfl, rfl⟩
  unfold analyze_resume skillComponent
  dsimp only
  congr 1
  ring

/-- C2: `skill_match_score = 0.75 * tech_score + 0.25 * soft_score` for
every pair of component values, and whenever the candidate soft-skill
phrase list is empty the soft score is `0.0`, leaving
`skill_match_score = 0.75 * tech_score`. -/
theorem skill_match_weighting {V : Type} (m : Option (EmbedModel V))
    (res : CandidateSkills) (req : RequiredSkills) :
    skillComponent m res req
        = 0.75 * techComponent m res req + 0.25 * softComponent m res req
      ∧ (softInputOf res = [] →
          softComponent m res req = 0
            ∧ skillComponent m res req = 0.75 * techComponent m res req) := by
  refine ⟨rfl, fun h => ?_⟩
  have hs : softComponent m res req = 0 := by
    unfold softComponent
    rw [h, score_right_empty]
  refine ⟨hs, ?_⟩
  unfold skillComponent
  rw [hs]
  ring

/-- Witness for C2 at a concrete input: end-to-end scenario 2 of the
spec, with no `"SOFT"` entry among the candidate skill sets. -/
theorem skill_match_weighting_witness :
    softComponent (some unitModel)
        { skill_sets := [{ category := "TECHNICAL", skills := ["Python", "SQL"] }] }
        { technical_skills := ["SQL", "Python"], soft_skills := ["communication"] } = 0
      ∧ skillComponent (some unitModel)
          { skill_sets := [{ category := "TECHNICAL", skills := ["Python", "SQL"] }] }
          { technical_skills := ["SQL", "Python"], soft_skills := ["communication"] }
        = 0.75 * techComponent (some unitModel)
            { skill_sets := [{ category := "TECHNICAL", skills := ["Python", "SQL"] }] }
            { technical_skills := ["SQL", "Python"], soft_skills := ["communication"] } :=
  (skill_match_weighting (some unitModel) _ _).2 rfl

/-- C3: every score is in `[0, 100]`, and a negative cosine similarity
is clamped by `max(0, min(100, round(sim * 100, 2)))` to exactly `0.0`,
never a negative score. -/
theorem score_range_negative_clamp {V : Type} (m : Option (EmbedModel V))
    (a b : TextInput) (sim : ℚ) (hneg : sim < 0) :
    (0 ≤ (SemanticModel.score m a b).1 ∧ (SemanticModel.score m a b).1 ≤ 100)
      ∧ scoreFromSim sim = 0 :=
  ⟨⟨score_fst_nonneg m a b, score_fst_le_100 m a b⟩, scoreFromSim_of_neg hneg⟩

/-- Witness for C3 at a concrete input: a similarity of `-1/2`. -/
theorem score_range_negative_clamp_witness :
    (0 ≤ (SemanticModel.score (some unitModel) (TextInput.str "job") (TextInput.str "resume")).1
        ∧ (SemanticModel.score (some unitModel) (TextInput.str "job") (TextInput.str "resume")).1 ≤ 100)
      ∧ scoreFromSim (-1/2) = 0 :=
  score_range_negative_clamp (some unitModel) (TextInput.str "job") (TextInput.str "resume")
    (-1/2) (by norm_num)

/-- C4: with an empty sequence on either side, `score` returns exactly
`0.0` and performs zero `encode` invocations, for every other argument
and every model state. -/
theorem score_empty_seq_zero_no_encode {V : Type} (m : Option (EmbedModel V)) (x : TextInput) :
    SemanticModel.score m (TextInput.list []) x = (0, 0)
      ∧ SemanticModel.score m x (TextInput.list []) = (0, 0) :=
  ⟨score_left_empty m x, score_right_empty m x⟩

/-- C5: for each tag, the phrase list used for scoring is the skills
list of the first entry bearing that tag (case-sensitive exact match),
or `[]` if no entry bears the tag or the first matching entry has an
empty skills list — later matching entries are never merged; and when
no `"TECHNICAL"` entry exists the tech score is exactly `0.0`. -/
theorem skill_partition_first_match {V : Type} (m : Option (EmbedModel V))
    (res : CandidateSkills) (req : RequiredSkills) :
    techInputOf res
        = (match res.skill_sets.find? (fun e => e.category == "TECHNICAL") with
           | none => []
           | some e => if e.skills.isEmpty then [] else e.skills)
      ∧ softInputOf res
          = (match res.skill_sets.find? (fun e => e.category == "SOFT") with
             | none => []
             | some e => if e.skills.isEmpty then [] else e.skills)
      ∧ (res.skill_sets.find? (fun e => e.category == "TECHNICAL") = none →
          techComponent m res req = 0) := by
  refine ⟨firstTagged_eq_find "TECHNICAL" res, firstTagged_eq_find "SOFT" res, fun h => ?_⟩
  have ht : techInputOf res = [] := by
    rw [techInputOf, firstTagged_eq_find "TECHNICAL" res, h]
  unfold techComponent
  rw [ht, score_right_empty]

/-- Witness for C5 at a concrete input: the oracle returned only a
`"SOFT"` category, so the tech score is `0.0`. -/
theorem skill_partition_first_match_witness :
    techComponent (some unitModel)
        { skill_sets := [{ category := "SOFT", skills := ["teamwork"] }] }
        { technical_skills := ["Python"], soft_skills := [] } = 0 :=
  (skill_partition_first_match (some unitModel) _ _).2.2 rfl

/-- C6 (code bug): the safe-default fallbacks of the oracle clients are
claimed to conform to each client's declared output schema, but the
exception fallback of `get_professional_summary_suggestions`
(`rewriter.py` lines 322-323) returns a dict keyed `"options"` while its
declared schema `ProfessionalSummaryResponse` declares the single field
`key_points`; the success path does conform.  This theorem evaluates
the embedded client at a failing oracle call. -/
theorem summary_fallback_breaks_schema :
    get_professional_summary_suggestions 50 (Except.error "boom")
        = [("options", JVal.ls []), ("error", JVal.s "Error generating summary: boom")]
      ∧ professionalSummaryConforms
          (get_professional_summary_suggestions 50 (Except.error "boom")) = false
      ∧ professionalSummaryConforms
          (get_professional_summary_suggestions 50 (Except.ok { key_points := ["tighten the summary"] })) = true := by
  refine ⟨rfl, rfl, rfl⟩

/-- C7: whenever the body of `score` fails internally — the model handle
is missing or an encoding step raises — `score` returns `0.0`; the
embedded function is moreover total, so no exception crosses the
boundary. -/
theorem score_internal_failure_zero {V : Type} (m : Option (EmbedModel V))
    (a b : TextInput) (h : internalFailure m a b = true) :
    (SemanticModel.score m a b).1 = 0 := by
  rcases m with _ | mm
  · rfl
  rcases a with j | j <;> rcases b with r | r
  · rcases henc : mm.encode [j, r] with e | embs
    · simp [SemanticModel.score, henc]
    · rcases embs with _ | ⟨e1, embs⟩
      · simp [SemanticModel.score, henc]
      · rcases embs with _ | ⟨e2, rest⟩
        · simp [SemanticModel.score, henc]
        · exfalso
          simp [internalFailure, encodeFailed, henc] at h
  · rfl
  · rfl
  · by_cases hemp : (j.isEmpty || r.isEmpty) = true
    · simp [SemanticModel.score, hemp]
    · rcases henc1 : mm.encode j with e | ej
      · simp [SemanticModel.score, hemp, henc1]
      · rcases henc2 : mm.encode r with e | er
        · simp [SemanticModel.score, hemp, henc1, henc2]
        · exfalso
          simp [internalFailure, encodeFailed, hemp, henc1, henc2] at h

/-- Witness for C7 at a concrete input: a model whose `encode` raises. -/
theorem score_internal_failure_zero_witness :
    (SemanticModel.score (some failingModel) (TextInput.str "job") (TextInput.str "resume")).1 = 0 :=
  score_internal_failure_zero (some failingModel) (TextInput.str "job") (TextInput.str "resume") rfl

/-- C8: when the embedding model maps the two copies of a text to the
same vector and cosine self-similarity is `1`, `score(a, a)` is exactly
`100.0` (hence within the claimed `0.01` tolerance of `100.0`). -/
theorem score_self_similarity_100 {V : Type} (m : EmbedModel V) (a : String) (v : V)
    (henc : m.encode [a, a] = Except.ok [v, v]) (hcos : m.cosSim v v = 1) :
    (SemanticModel.score (some m) (TextInput.str a) (TextInput.str a)).1 = 100 := by
  simp [SemanticModel.score, henc, hcos, scoreFromSim_one]

/-- Witness for C8 at a concrete input: end-to-end scenario 1 of the
spec, resume and job description both the same literal text. -/
theorem score_self_similarity_100_witness :
    (SemanticModel.score (some unitModel)
        (TextInput.str "Python developer with 5 years experience in backend systems")
        (TextInput.str "Python developer with 5 years experience in backend systems")).1 = 100 :=
  score_self_similarity_100 unitModel
    "Python developer with 5 years experience in backend systems" () rfl rfl

/-- C9: an upload whose filename ends neither in `.pdf` nor `.docx` is
rejected with the 400 input error by the upload-processing dependency,
before extraction, any oracle call, or any embedding computation. -/
theorem upload_non_pdf_docx_rejected_early {V : Type} (m : Option (EmbedModel V))
    (filename pdfText docxText jd jt : String)
    (skillO : Except String CandidateSkills) (reqO : Except String RequiredSkills)
    (contentO : Except String ContentScoreResponse)
    (structO : Except String StructureScoreResponse)
    (h1 : pyEndsWith filename ".pdf" = false) (h2 : pyEndsWith filename ".docx" = false) :
    analyze_resume_endpoint m filename pdfText docxText jd jt skillO reqO contentO structO
      = { response := Except.error (400, "Unsupported File Format. Please upload .docx or .pdf")
          extractionCalled := false, oracleCalled := false, encodeCalled := false } := by
  unfold analyze_resume_endpoint process_uploaded_file
  rw [h1, h2]
  rfl

/-- Witness for C9 at a concrete input: end-to-end scenario 3 of the
spec, a `.txt` upload. -/
theorem upload_non_pdf_docx_rejected_early_witness :
    analyze_resume_endpoint (some unitModel) "resume.txt" "pdf text" "docx text"
        "job description" "job title" (Except.ok { skill_sets := [] })
        (Except.ok { technical_skills := [], soft_skills := [] })
        (Except.ok { score := 70, reasoning := "fine", missing_keywords := [], improvement_tips := [] })
        (Except.ok { score := 60, reasoning := "fine" })
      = { response := Except.error (400, "Unsupported File Format. Please upload .docx or .pdf")
          extractionCalled := false, oracleCalled := false, encodeCalled := false } :=
  upload_non_pdf_docx_rejected_early (some unitModel) "resume.txt" "pdf text" "docx text"
    "job description" "job title" _ _ _ _ (by decide) (by decide)

/-- C10: for resume text that is empty or shorter than 50 characters,
`extract_all_skills` returns an empty `skill_sets` together with the
error message, without invoking the generative oracle, and both derived
candidate phrase lists are therefore empty. -/
theorem extract_short_text_defaults (text : String) (oracle : Except String CandidateSkills)
    (h : text.data.length < 50) :
    (extract_all_skills text oracle).1.skill_sets = []
      ∧ (extract_all_skills text oracle).1.error
          = some "Resume text is too short for skill extraction."
      ∧ (extract_all_skills text oracle).2 = false
      ∧ techInputOf { skill_sets := (extract_all_skills text oracle).1.skill_sets } = []
      ∧ softInputOf { skill_sets := (extract_all_skills text oracle).1.skill_sets } = [] := by
  have hcond : (text.data.isEmpty || decide (text.data.length < 50)) = true := by
    rw [decide_eq_true h, Bool.or_true]
  unfold extract_all_skills
  rw [if_pos hcond]
  exact ⟨rfl, rfl, rfl, rfl, rfl⟩

/-- Witness for C10 at a concrete input: a one-character resume text and
an oracle that would have returned a technical category. -/
theorem extract_short_text_defaults_witness :
    (extract_all_skills "x"
        (Except.ok { skill_sets := [{ category := "TECHNICAL", skills := ["Python"] }] })).1.skill_sets = []
      ∧ (extract_all_skills "x"
          (Except.ok { skill_sets := [{ category := "TECHNICAL", skills := ["Python"] }] })).1.error
          = some "Resume text is too short for skill extraction."
      ∧ (extract_all_skills "x"
          (Except.ok { skill_sets := [{ category := "TECHNICAL", skills := ["Python"] }] })).2 = false
      ∧ techInputOf { skill_sets := (extract_all_skills "x"
          (Except.ok { skill_sets := [{ category := "TECHNICAL", skills := ["Python"] }] })).1.skill_sets } = []
      ∧ softInputOf { skill_sets := (extract_all_skills "x"
          (Except.ok { skill_sets := [{ category := "TECHNICAL", skills := ["Python"] }] })).1.skill_sets } = [] :=
  extract_short_text_defaults "x"
    (Except.ok { skill_sets := [{ category := "TECHNICAL", skills := ["Python"] }] }) (by decide)
